import Mathlib

/-!
Verification of the isolation-header static server (src/server.py).

The script subclasses the standard-library static-file request handler and
overrides `end_headers` to append the two cross-origin-isolation headers
before the buffered headers are flushed to the socket.  The header buffer,
the delegate file serving and the socket lifecycle live in the standard
library; where a claim depends on them they are modelled from the spec and
marked as such in the doc comment.
-/

namespace SVGInThree

/-- An HTTP header: a name and a value. -/
structure Header where
  name : String
  value : String
deriving DecidableEq, Repr

/-- The first injected header, src/server.py line 8. -/
def coopHeader : Header :=
  ⟨"Cross-Origin-Opener-Policy", "same-origin"⟩

/-- The second injected header, src/server.py line 9. -/
def coepHeader : Header :=
  ⟨"Cross-Origin-Embedder-Policy", "require-corp"⟩

/-- Modelled from the spec: the base handler buffers headers;
`send_header` appends one name/value pair to the buffer. -/
def send_header (buf : List Header) (n v : String) : List Header :=
  buf ++ [⟨n, v⟩]

/-- Modelled from the spec: the base handler's `end_headers` is the flush
step that transmits the buffered status line and headers to the socket, in
buffer order.  Its result is the header set on the wire. -/
def super_end_headers (buf : List Header) : List Header :=
  buf

/-- `CrossOriginIsolatedHandler.end_headers`, src/server.py lines 7-10:
append the two isolation headers, then delegate to the base flush. -/
def end_headers (buf : List Header) : List Header :=
  super_end_headers
    (send_header
      (send_header buf "Cross-Origin-Opener-Policy" "same-origin")
      "Cross-Origin-Embedder-Policy" "require-corp")

theorem end_headers_eq (buf : List Header) :
    end_headers buf = buf ++ [coopHeader, coepHeader] := by
  simp [end_headers, send_header, super_end_headers, coopHeader, coepHeader]

/-- `PORT`, src/server.py line 4. -/
def PORT : Nat := 9999

/-- The port the process listens on, as a function of the command line and
the environment: src/server.py parses no arguments and reads no environment
variables, so the constant `PORT` is used regardless. -/
def configuredPort (_args : List String)
    (_env : List (String × String)) : Nat :=
  PORT

/-- The directory files are served from: src/server.py passes no directory,
so the delegate uses the current working directory at launch, regardless of
arguments and environment. -/
def servingRoot (cwd : String) (_args : List String)
    (_env : List (String × String)) : String :=
  cwd

/-- Modelled from the spec: the filesystem tree under the serving root, as
relative paths (segment lists) mapped to file contents. -/
structure FileSystem where
  files : List (List String × String)
deriving Repr

/-- Splits a character list at every occurrence of the separator, keeping
empty segments. -/
def splitChars (sep : Char) : List Char → List String
  | [] => [""]
  | c :: cs =>
      let r := splitChars sep cs
      if c = sep then "" :: r
      else
        match r with
        | [] => [String.mk [c]]
        | s :: rest => (String.mk (c :: s.data)) :: rest

/-- Modelled from the spec: standard static-file path resolution maps the
request path to segments and rejects traversal outside the root by
discarding empty, current-directory and parent-directory components. -/
def resolvePath (p : String) : List String :=
  (splitChars '/' p.data).filter
    (fun s => !(s == "") && !(s == ".") && !(s == ".."))

/-- Modelled from the spec: the delegate sets `Content-Type` by file
extension. -/
def mimeType (p : String) : String :=
  if ".html".data.isSuffixOf p.data then "text/html"
  else "application/octet-stream"

/-- A parsed HTTP request: method and path. -/
structure Request where
  method : String
  path : String
deriving DecidableEq, Repr

/-- Modelled from the spec: parse the HTTP request line; an unparsable
request yields none (it will be answered with 400). -/
def parseRequest (raw : String) : Option Request :=
  match splitChars ' ' raw.data with
  | [m, p, v] =>
      if (m == "GET" || m == "HEAD") && "HTTP/".data.isPrefixOf v.data then
        some ⟨m, p⟩
      else
        none
  | _ => none

/-- An HTTP response: status code, wire header set, body bytes. -/
structure Response where
  status : Nat
  headers : List Header
  body : String
deriving DecidableEq, Repr

/-- Modelled from the spec: the delegate resolves the path under the root
and produces the status, the buffered delegate headers and the body: 200
with the file's bytes when it exists, 404 otherwise. -/
def delegateHead (fs : FileSystem) (req : Request) :
    Nat × List Header × String :=
  match fs.files.lookup (resolvePath req.path) with
  | some body =>
      (200,
       [⟨"Content-Type", mimeType req.path⟩,
        ⟨"Content-Length", toString body.length⟩],
       body)
  | none =>
      (404, [⟨"Content-Type", "text/html;charset=utf-8"⟩], "404 Not Found")

/-- Handling of one parsed request: the delegate builds status, headers and
body, and the overridden `end_headers` injects the isolation headers at the
flush (src/server.py lines 6-10).  A HEAD response carries no body. -/
def handleRequest (fs : FileSystem) (req : Request) : Response :=
  let d := delegateHead fs req
  { status := d.1
    headers := end_headers d.2.1
    body := if req.method == "HEAD" then "" else d.2.2 }

/-- Modelled from the spec: one accepted connection: parse the request and
handle it; a malformed request is answered with HTTP 400, whose headers
also pass through the overridden `end_headers`. -/
def handleConnection (fs : FileSystem) (raw : String) : Response :=
  match parseRequest raw with
  | some req => handleRequest fs req
  | none =>
      { status := 400
        headers :=
          end_headers [⟨"Content-Type", "text/html;charset=utf-8"⟩]
        body := "400 Bad Request" }

theorem handleConnection_headers (fs : FileSystem) (raw : String) :
    ∃ buf, (handleConnection fs raw).headers = end_headers buf := by
  unfold handleConnection
  cases parseRequest raw with
  | none => exact ⟨_, rfl⟩
  | some req => exact ⟨_, rfl⟩

/-- C1: every HTTP response produced by the server, success or error,
carries `Cross-Origin-Opener-Policy: same-origin` and
`Cross-Origin-Embedder-Policy: require-corp` in its header set. -/
theorem isolation_headers_on_every_response (fs : FileSystem) (raw : String) :
    coopHeader ∈ (handleConnection fs raw).headers ∧
    coepHeader ∈ (handleConnection fs raw).headers := by
  obtain ⟨buf, hbuf⟩ := handleConnection_headers fs raw
  rw [hbuf, end_headers_eq]
  constructor
  · exact List.mem_append_right _ (by simp)
  · exact List.mem_append_right _ (by simp)

/-- C2: the injection happens where the delegate finalizes headers and
before the flush writes them to the socket (`end_headers` is exactly the
base flush applied to the buffer with the two headers appended), and it is
purely additive: the delegate's buffered headers survive unchanged, in
order, as the initial segment of the wire header set. -/
theorem injection_additive_before_flush (buf : List Header) :
    end_headers buf = super_end_headers (buf ++ [coopHeader, coepHeader]) ∧
    (end_headers buf).take buf.length = buf ∧
    ∀ h ∈ buf, h ∈ end_headers buf := by
  refine ⟨?_, ?_, ?_⟩
  · simp [end_headers, send_header, super_end_headers, coopHeader, coepHeader]
  · rw [end_headers_eq]
    exact List.take_left buf _
  · intro h hh
    rw [end_headers_eq]
    exact List.mem_append_left _ hh

/-- C10: a single call to `end_headers` appends exactly two headers, the
opener policy first and the embedder policy second, after every header the
delegate buffered; it never deduplicates, so a header already present in
the buffer appears once more in the result rather than being overridden. -/
theorem end_headers_appends_exactly_two (buf : List Header) :
    end_headers buf = buf ++ [coopHeader, coepHeader] ∧
    (end_headers buf).length = buf.length + 2 ∧
    (end_headers buf).count coopHeader = buf.count coopHeader + 1 ∧
    (end_headers buf).count coepHeader = buf.count coepHeader + 1 := by
  refine ⟨end_headers_eq buf, ?_, ?_, ?_⟩
  · rw [end_headers_eq]; simp
  · rw [end_headers_eq]
    simp [List.count_append, coopHeader, coepHeader]
  · rw [end_headers_eq]
    simp [List.count_append, coopHeader, coepHeader]

/-- Modelled from the spec: the outcome of binding the TCP listener on all
interfaces at the configured port. -/
inductive BindResult where
  | ok
  | portInUse
  | permissionDenied
deriving DecidableEq, Repr

/-- Modelled from the spec: binding a port that another running instance
already holds fails with address-in-use. -/
def bindOnPort (portHeldByOther : Bool) : BindResult :=
  if portHeldByOther then .portInUse else .ok

/-- Modelled from the spec: the message reported when the bind fails. -/
def bindErrorMessage : BindResult → String
  | .ok => ""
  | .portInUse => "OSError: Address already in use"
  | .permissionDenied => "PermissionError: Permission denied"

/-- An observable event of the process: a line on standard output, a line
on the error stream, or a response served to a connection. -/
inductive Event where
  | stdoutLine (s : String)
  | stderrLine (s : String)
  | served (r : Response)
deriving DecidableEq, Repr

/-- Whether an event is a standard-output line. -/
def Event.isStdout : Event → Bool
  | .stdoutLine _ => true
  | _ => false

/-- Whether an event is a served response. -/
def Event.isServed : Event → Bool
  | .served _ => true
  | _ => false

/-- The first startup line, src/server.py line 13. -/
def servingLine : String := "Serving at http://localhost:" ++ toString PORT

/-- The second startup line, src/server.py line 14. -/
def isolationLine : String := "Cross-Origin Isolation headers are enabled."

/-- The observable result of one process run: its exit status (none while
still running) and the ordered event trace. -/
structure ProcessResult where
  exitCode : Option Nat
  trace : List Event
deriving DecidableEq, Repr

/-- The process, src/server.py lines 12-15, over a modelled bind outcome
and a finite batch of incoming connections (the stdlib serve loop is
modelled from the spec): on a successful bind print the two status lines
and then serve every connection; on a bind failure report the condition
and exit with status 1 without serving anything. -/
def runServer (bind : BindResult) (fs : FileSystem)
    (incoming : List String) : ProcessResult :=
  match bind with
  | .ok =>
      { exitCode := none
        trace :=
          [.stdoutLine servingLine, .stdoutLine isolationLine]
            ++ incoming.map (fun raw => .served (handleConnection fs raw)) }
  | b =>
      { exitCode := some 1
        trace := [.stderrLine (bindErrorMessage b)] }

/-- Modelled from the spec: `serve_forever` accepts and handles connections
one after another and never returns; after `n` iterations the loop is
still running and has served `n` responses. -/
def serveForeverRun (fs : FileSystem) (incoming : Nat → String) :
    Nat → Bool × List Response
  | 0 => (true, [])
  | n + 1 =>
      let s := serveForeverRun fs incoming n
      (s.1, s.2 ++ [handleConnection fs (incoming n)])

theorem served_of_map_nil (fs : FileSystem) (incoming : List String) :
    (incoming.map
        (fun raw => Event.served (handleConnection fs raw))).filter
      Event.isStdout = [] := by
  induction incoming with
  | nil => rfl
  | cons raw rest ih => simp [Event.isStdout, ih]

/-- C3: when the bind fails (port in use or permission denied) the process
reports the condition and exits with status 1 without serving any request;
a second instance started while a first holds the port binds as
address-in-use and so fails this way. -/
theorem bind_failure_is_fatal (bind : BindResult) (fs : FileSystem)
    (incoming : List String) (h : bind ≠ .ok) :
    (runServer bind fs incoming).exitCode = some 1 ∧
    (runServer bind fs incoming).trace =
      [.stderrLine (bindErrorMessage bind)] ∧
    ((runServer bind fs incoming).trace.filter Event.isServed) = [] ∧
    bindOnPort true = .portInUse := by
  cases bind with
  | ok => exact absurd rfl h
  | portInUse =>
      exact ⟨rfl, rfl, rfl, rfl⟩
  | permissionDenied =>
      exact ⟨rfl, rfl, rfl, rfl⟩

/-- Witness for C3 at the second-instance scenario: the port is held, the
bind comes back address-in-use, the process exits 1 with nothing served. -/
theorem bind_failure_is_fatal_witness :
    BindResult.portInUse ≠ BindResult.ok ∧
    (runServer .portInUse ⟨[]⟩ ["GET / HTTP/1.1"]).exitCode = some 1 ∧
    (runServer .portInUse ⟨[]⟩ ["GET / HTTP/1.1"]).trace =
      [.stderrLine (bindErrorMessage .portInUse)] ∧
    ((runServer .portInUse ⟨[]⟩
        ["GET / HTTP/1.1"]).trace.filter Event.isServed) = [] ∧
    bindOnPort true = .portInUse := by
  refine ⟨by decide, ?_⟩
  have h :=
    bind_failure_is_fatal .portInUse ⟨[]⟩ ["GET / HTTP/1.1"] (by decide)
  exact ⟨h.1, h.2.1, h.2.2.1, h.2.2.2⟩

/-- C7: the listening port is the single configuration value, equal to
9999, fixed as a constant at process start whatever the command line and
environment are, and files are served from the working directory at
launch. -/
theorem port_is_sole_configuration (args : List String)
    (env : List (String × String)) (cwd : String) :
    PORT = 9999 ∧
    configuredPort args env = 9999 ∧
    servingRoot cwd args env = cwd := by
  exact ⟨rfl, rfl, rfl⟩

/-- C8: after a successful bind and before any request is served, the
process emits exactly two standard-output lines: the serving URL and the
isolation-headers confirmation. -/
theorem two_startup_lines (fs : FileSystem) (incoming : List String) :
    ((runServer .ok fs incoming).trace.filter Event.isStdout) =
      [.stdoutLine servingLine, .stdoutLine isolationLine] ∧
    (runServer .ok fs incoming).trace.take 2 =
      [.stdoutLine servingLine, .stdoutLine isolationLine] ∧
    servingLine = "Serving at http://localhost:9999" := by
  refine ⟨?_, rfl, rfl⟩
  simp only [runServer, List.filter_append, served_of_map_nil,
    List.append_nil]
  rfl

/-- C9: after a successful bind the serve loop never returns of its own
accord: after any number of iterations it is still running, having served
one response per accepted connection. -/
theorem serve_loop_never_returns (fs : FileSystem) (incoming : Nat → String)
    (n : Nat) :
    (serveForeverRun fs incoming n).1 = true ∧
    (serveForeverRun fs incoming n).2.length = n := by
  induction n with
  | zero => exact ⟨rfl, rfl⟩
  | succ k ih =>
      refine ⟨ih.1, ?_⟩
      simp [serveForeverRun, ih.2]

/-- A key that `List.lookup` finds is a pair of the association list. -/
theorem lookup_mem {k : List String} {v : String}
    {l : List (List String × String)} (h : l.lookup k = some v) :
    (k, v) ∈ l := by
  induction l with
  | nil => simp [List.lookup] at h
  | cons hd tl ih =>
      rw [List.lookup] at h
      by_cases hk : k = hd.1
      · subst hk
        simp at h
        subst h
        exact List.mem_cons_self _ _
      · have hb : (k == hd.1) = false := beq_false_of_ne hk
        rw [hb] at h
        exact List.mem_cons_of_mem _ (ih h)

theorem served_filter_all (fs : FileSystem) (incoming : List String) :
    ((incoming.map
        (fun raw => Event.served (handleConnection fs raw))).filter
      Event.isServed) =
      incoming.map (fun raw => Event.served (handleConnection fs raw)) := by
  induction incoming with
  | nil => rfl
  | cons raw rest ih => simp [Event.isServed, ih]

/-- The sample serving root of the spec scenario: index.html holding
`<h1>hi</h1>`. -/
def sampleFS : FileSystem := ⟨[(["index.html"], "<h1>hi</h1>")]⟩

/-- The sample request of the spec scenario. -/
def sampleReq : Request := ⟨"GET", "/index.html"⟩

/-- C4: an error on an individual request is answered on that connection
with a standard HTTP error status and never ends the process: a request
for a missing path gets 404 with both isolation headers still present, a
malformed request gets 400, and the server goes on to serve every incoming
connection with its exit code still unset. -/
theorem request_errors_not_fatal (fs : FileSystem) (incoming : List String)
    (rawBad rawMissing : String) (req : Request)
    (hb : parseRequest rawBad = none)
    (hp : parseRequest rawMissing = some req)
    (hm : fs.files.lookup (resolvePath req.path) = none) :
    (handleConnection fs rawMissing).status = 404 ∧
    coopHeader ∈ (handleConnection fs rawMissing).headers ∧
    coepHeader ∈ (handleConnection fs rawMissing).headers ∧
    (handleConnection fs rawBad).status = 400 ∧
    (runServer .ok fs incoming).exitCode = none ∧
    ((runServer .ok fs incoming).trace.filter Event.isServed).length
      = incoming.length := by
  obtain ⟨buf, hbuf⟩ := handleConnection_headers fs rawMissing
  refine ⟨?_, ?_, ?_, ?_, rfl, ?_⟩
  · simp [handleConnection, hp, handleRequest, delegateHead, hm]
  · rw [hbuf, end_headers_eq]
    exact List.mem_append_right _ (by simp)
  · rw [hbuf, end_headers_eq]
    exact List.mem_append_right _ (by simp)
  · simp [handleConnection, hb]
  · simp [runServer, List.filter_append, Event.isServed,
      served_filter_all]

/-- Witness for C4: a missing file gets 404 with the isolation headers, a
garbage request line gets 400, and both connections of the batch are
served with the process still running. -/
theorem request_errors_not_fatal_witness :
    parseRequest "garbage" = none ∧
    parseRequest "GET /missing.html HTTP/1.1" =
      some ⟨"GET", "/missing.html"⟩ ∧
    sampleFS.files.lookup (resolvePath "/missing.html") = none ∧
    (handleConnection sampleFS "GET /missing.html HTTP/1.1").status = 404 ∧
    coopHeader ∈
      (handleConnection sampleFS "GET /missing.html HTTP/1.1").headers ∧
    coepHeader ∈
      (handleConnection sampleFS "GET /missing.html HTTP/1.1").headers ∧
    (handleConnection sampleFS "garbage").status = 400 ∧
    (runServer .ok sampleFS
        ["GET /missing.html HTTP/1.1", "garbage"]).exitCode = none ∧
    ((runServer .ok sampleFS
        ["GET /missing.html HTTP/1.1", "garbage"]).trace.filter
      Event.isServed).length = 2 := by
  refine ⟨by decide, by decide, by decide, ?_⟩
  have h := request_errors_not_fatal sampleFS
    ["GET /missing.html HTTP/1.1", "garbage"]
    "garbage" "GET /missing.html HTTP/1.1" ⟨"GET", "/missing.html"⟩
    (by decide) (by decide) (by decide)
  exact ⟨h.1, h.2.1, h.2.2.1, h.2.2.2.1, h.2.2.2.2.1, h.2.2.2.2.2⟩

/-- C5: a GET for a file that exists under the serving root is answered
with status 200, the file's bytes unmodified as the body, and both
isolation headers. -/
theorem existing_file_served (fs : FileSystem) (req : Request)
    (body : String)
    (hg : req.method = "GET")
    (hf : fs.files.lookup (resolvePath req.path) = some body) :
    (handleRequest fs req).status = 200 ∧
    (handleRequest fs req).body = body ∧
    coopHeader ∈ (handleRequest fs req).headers ∧
    coepHeader ∈ (handleRequest fs req).headers := by
  refine ⟨?_, ?_, ?_, ?_⟩
  · simp [handleRequest, delegateHead, hf]
  · simp [handleRequest, delegateHead, hf, hg]
  · simp [handleRequest, end_headers_eq]
  · simp [handleRequest, end_headers_eq]

/-- Witness for C5, the spec's concrete scenario: GET /index.html against
a root holding index.html with body `<h1>hi</h1>` returns 200, that exact
body, and both isolation headers. -/
theorem existing_file_served_witness :
    sampleReq.method = "GET" ∧
    sampleFS.files.lookup (resolvePath sampleReq.path) =
      some "<h1>hi</h1>" ∧
    (handleRequest sampleFS sampleReq).status = 200 ∧
    (handleRequest sampleFS sampleReq).body = "<h1>hi</h1>" ∧
    coopHeader ∈ (handleRequest sampleFS sampleReq).headers ∧
    coepHeader ∈ (handleRequest sampleFS sampleReq).headers := by
  refine ⟨rfl, by decide, ?_⟩
  have h := existing_file_served sampleFS sampleReq "<h1>hi</h1>" rfl
    (by decide)
  exact ⟨h.1, h.2.1, h.2.2.1, h.2.2.2⟩

/-- C6: path resolution discards every parent-directory component, so the
resolved location always stays below the serving root, and any 200
response's body is the contents of a file stored under the root (or empty
for HEAD): no file outside the root is ever returned. -/
theorem no_traversal_escape (p : String) (root : List String)
    (fs : FileSystem) (req : Request) :
    ".." ∉ resolvePath p ∧
    (root ++ resolvePath p).take root.length = root ∧
    ((handleRequest fs req).status = 200 →
      ∃ body, (resolvePath req.path, body) ∈ fs.files ∧
        ((handleRequest fs req).body = body ∨ req.method = "HEAD")) := by
  refine ⟨?_, List.take_left root _, ?_⟩
  · intro hmem
    have hp := List.of_mem_filter hmem
    simp at hp
  · intro h200
    cases hf : fs.files.lookup (resolvePath req.path) with
    | none =>
        exfalso
        simp [handleRequest, delegateHead, hf] at h200
    | some body =>
        refine ⟨body, lookup_mem hf, ?_⟩
        by_cases hm : req.method = "HEAD"
        · exact Or.inr hm
        · refine Or.inl ?_
          simp [handleRequest, delegateHead, hf, hm]

/-- Witness for C6: the traversal path /../../etc/passwd resolves inside
the root, and the sample 200 response serves exactly the stored
index.html. -/
theorem no_traversal_escape_witness :
    ".." ∉ resolvePath "/../../etc/passwd" ∧
    ((["root"] ++ resolvePath "/../../etc/passwd").take 1 = ["root"]) ∧
    (handleRequest sampleFS sampleReq).status = 200 ∧
    (∃ body, (resolvePath sampleReq.path, body) ∈ sampleFS.files ∧
      ((handleRequest sampleFS sampleReq).body = body ∨
        sampleReq.method = "HEAD")) := by
  have h := no_traversal_escape "/../../etc/passwd" ["root"] sampleFS
    sampleReq
  exact ⟨h.1, h.2.1, by decide, h.2.2 (by decide)⟩

end SVGInThree
